import Mathlib

namespace Translator

/-! # Shallow embedding of `src/Translator.py`

External collaborators (the microphone, the Google speech recognizer,
`langdetect`, `mtranslate`, `gTTS`, `pydub`/ffmpeg) are modelled as explicit
environment parameters; a `none` result of such a parameter models the
collaborator raising an exception.  The filesystem is modelled as the list of
currently existing temporary-file paths.  Python `bytes` values are modelled
as `List Nat`, and the playback-speed float as `Rat` (the UI slider only
produces the exactly representable values 0.5, 0.6, ..., 2.0, and the code
compares speeds with `!=`). -/

/-- The filesystem: paths of currently existing temporary files. -/
abbrev FS := List String

/-- `os.unlink`: remove a path from the filesystem. -/
def deleteFile (fs : FS) (name : String) : FS :=
  fs.filter (fun p => p ≠ name)

/-- Lines 16-28: the `LANGUAGES` registry, language code → display name. -/
def LANGUAGES : List (String × String) :=
  [("en", "English"), ("es", "Spanish"), ("fr", "French"), ("de", "German"),
   ("it", "Italian"), ("pt", "Portuguese"), ("ru", "Russian"), ("zh", "Chinese"),
   ("ja", "Japanese"), ("hi", "Hindi"), ("ta", "Tamil")]

/-- Lines 31-43: the `TTS_LANGUAGE_MAPPING` registry, language code → gTTS
voice identifier. -/
def TTS_LANGUAGE_MAPPING : List (String × String) :=
  [("en", "en"), ("es", "es"), ("fr", "fr"), ("de", "de"), ("it", "it"),
   ("pt", "pt"), ("ru", "ru"), ("zh", "zh"), ("ja", "ja"), ("hi", "hi"),
   ("ta", "ta")]

/-- Lines 55-61: `detect_language`.  `detectExt` models `langdetect.detect`,
with `none` modelling it raising.  The bare `except:` catches every exception,
so the Python function is total and the embedding is a plain function. -/
def detect_language (detectExt : String → Option String) (text : String) :
    Option String × String :=
  match detectExt text with
  | some lang_code => (some lang_code, (LANGUAGES.lookup lang_code).getD lang_code)
  | none => (none, "Unknown")

/-- The `pydub` collaborator used by `adjust_speed`: decoding mp3 bytes into
an `AudioSegment` (modelled as its sample list), the `speedup` effect, and
re-encoding back to mp3 bytes.  `none` models the call raising. -/
structure AdjEnv where
  decode : List Nat → Option (List Nat)
  speedup : List Nat → Rat → Option (List Nat)
  exportBytes : List Nat → Option (List Nat)

/-- Lines 63-80: `adjust_speed`.  The `except Exception` arm returns the
input bytes whenever any of the three steps raises, so the embedding is a
total function.  Note that when `speed == 1.0` only the `speedup` call is
skipped: the decode and re-encode still run. -/
def adjust_speed (aenv : AdjEnv) (audio_bytes : List Nat) (speed : Rat) :
    List Nat :=
  match aenv.decode audio_bytes with
  | none => audio_bytes
  | some audio =>
    match (if speed = 1 then some audio else aenv.speedup audio speed) with
    | none => audio_bytes
    | some audio2 =>
      match aenv.exportBytes audio2 with
      | none => audio_bytes
      | some out => out

/-- Environment for `text_to_speech`: `tmpOk`/`tmpName` model
`tempfile.NamedTemporaryFile` (whether creation succeeds, and the fresh path
it yields); `save` models `gTTS(...).save` followed by reading the written
file back, with `none` modelling a raised exception (network failure);
`adj` is the `pydub` collaborator passed on to `adjust_speed`. -/
structure TtsEnv where
  tmpOk : Bool
  tmpName : String
  save : String → String → Option (List Nat)
  adj : AdjEnv

/-- Result of `text_to_speech`: the returned boolean, the filesystem after
the `finally` cleanup, the bytes handed to `st.audio` (if reached), and the
voice identifier passed to the `gTTS` constructor (if reached). -/
structure TtsResult where
  ok : Bool
  fs : FS
  played : Option (List Nat)
  voice : Option String

/-- Lines 82-110: `text_to_speech`.  The voice is
`TTS_LANGUAGE_MAPPING.get(language_code, 'en')`; the `finally` block removes
the temporary file on every exit path on which it was created. -/
def text_to_speech (env : TtsEnv) (fs : FS) (text language_code : String)
    (speed : Rat) : TtsResult :=
  if env.tmpOk then
    let temp_path := env.tmpName
    let fs1 : FS := temp_path :: fs
    let voice := (TTS_LANGUAGE_MAPPING.lookup language_code).getD "en"
    match env.save text voice with
    | none => ⟨false, deleteFile fs1 temp_path, none, some voice⟩
    | some audio_bytes =>
      let played := if speed = 1 then audio_bytes
                    else adjust_speed env.adj audio_bytes speed
      ⟨true, deleteFile fs1 temp_path, some played, some voice⟩
  else ⟨false, fs, none, none⟩

/-- Lines 117-122: the session state kept in `st.session_state`. -/
structure Session where
  input_text : Option String
  detected_lang : Option (Option String × String)
  translated_text : Option String
  target_lang : Option (String × String)

/-- Outcome of `recognizer.recognize_google`: recognized text, or the
`sr.UnknownValueError` / `sr.RequestError` exceptions. -/
inductive RecogResult where
  | ok (t : String)
  | unintelligible
  | serviceError
deriving DecidableEq

/-- Environment for the record action: `listen` models
`recognizer.listen` (`none` = `sr.WaitTimeoutError`, no speech within 5s),
`recName` the fresh path yielded by `tempfile.NamedTemporaryFile`,
`recog` the recognizer outcome, `detectExt` the `langdetect` collaborator. -/
structure RecEnv where
  listen : Option Unit
  recName : String
  recog : RecogResult
  detectExt : String → Option String

/-- Lines 45-53: `record_audio`.  If `listen` times out it raises (`none`)
before any file is created; otherwise it creates the temporary WAV file and
returns its path, leaving the file on the filesystem for the caller. -/
def record_audio (env : RecEnv) (fs : FS) : Option (String × FS) :=
  match env.listen with
  | none => none
  | some _ => some (env.recName, env.recName :: fs)

/-- Result of the record-button handler: session state, filesystem after the
`finally` cleanup, and the error messages shown via `st.error`. -/
structure RecordOut where
  sess : Session
  fs : FS
  errors : List String

/-- Lines 125-144: the `st.button("🎤 Record Voice")` handler in `main`.
`st.session_state.input_text` is assigned only when `recognize_google`
returns; every exception path leaves it untouched and shows an error, and
the `finally` block unlinks `audio_file` whenever it was created. -/
def recordAction (env : RecEnv) (st : Session) (fs : FS) : RecordOut :=
  match record_audio env fs with
  | none => ⟨st, fs, ["Error: listening timed out"]⟩
  | some (name, fs1) =>
    match env.recog with
    | .ok t =>
      let st1 := { st with input_text := some t }
      let st2 := if t ≠ "" then
          { st1 with detected_lang := some (detect_language env.detectExt t) }
        else st1
      ⟨st2, deleteFile fs1 name, []⟩
    | .unintelligible =>
      ⟨st, deleteFile fs1 name, ["Could not understand audio. Please try again."]⟩
    | .serviceError =>
      ⟨st, deleteFile fs1 name, ["Speech recognition service error"]⟩

/-- Lines 175-184: the `st.button("Translate")` handler in `main`.  `tr`
models `mtranslate.translate` applied to `(input_text, targetCode, 'auto')`,
with `none` modelling a raised exception.  The assignment to
`st.session_state.translated_text` happens only after `translate` returns.
Returns the session state and the error messages shown. -/
def translateAction (tr : String → String → Option String) (st : Session)
    (targetCode : String) : Session × List String :=
  match st.input_text with
  | some t =>
    match tr t targetCode with
    | some out => ({ st with translated_text := some out }, [])
    | none => (st, ["Translation error"])
  | none => (st, [])

/-- Result of the playback step: filesystem, the list of `text_to_speech`
calls performed as (text, language_code) pairs, and warnings shown. -/
structure PlayOut where
  fs : FS
  attempts : List (String × String)
  warnings : List String

/-- Lines 187-195: the playback step of `main`.  The target code is
`st.session_state.get('target_lang', ('en', 'English'))[0]`; if the first
`text_to_speech` call reports failure, exactly one further call with
language `'en'` is made after a warning.  The two calls get their own
environments (fresh temporary names, independent service outcomes). -/
def playbackAction (env1 env2 : TtsEnv) (st : Session) (fs : FS)
    (speed : Rat) : PlayOut :=
  match st.translated_text with
  | none => ⟨fs, [], []⟩
  | some txt =>
    let target_code := (st.target_lang.getD ("en", "English")).1
    let r1 := text_to_speech env1 fs txt target_code speed
    if r1.ok then ⟨r1.fs, [(txt, target_code)], []⟩
    else
      let r2 := text_to_speech env2 r1.fs txt "en" speed
      ⟨r2.fs, [(txt, target_code), (txt, "en")],
        ["Couldn't play audio in selected language. Trying English..."]⟩

/-! ## Concrete environments used by witnesses and counterexamples -/

/-- A codec in which decoding is the identity on the sample list and
re-encoding prepends a header byte — mp3 re-encoding never reproduces the
input byte-for-byte, and this environment exhibits that. -/
def reencodeEnv : AdjEnv :=
  ⟨fun b => some b, fun a _ => some a, fun a => some (0 :: a)⟩

/-- A codec environment in which decoding always raises. -/
def failAdjEnv : AdjEnv :=
  ⟨fun _ => none, fun _ _ => none, fun _ => none⟩

/-- A `text_to_speech` environment whose synthesis call always raises. -/
def failTtsEnv : TtsEnv :=
  ⟨true, "tts.mp3", fun _ _ => none, failAdjEnv⟩

/-- A second failing `text_to_speech` environment (fresh temporary name). -/
def failTtsEnv2 : TtsEnv :=
  ⟨true, "tts2.mp3", fun _ _ => none, failAdjEnv⟩

/-- A record environment in which listening and recognition succeed. -/
def recEnvOk : RecEnv :=
  ⟨some (), "rec.wav", .ok "hello", fun _ => some "en"⟩

/-- A record environment in which the recognizer raises
`sr.UnknownValueError`. -/
def recEnvUnintelligible : RecEnv :=
  ⟨some (), "rec.wav", .unintelligible, fun _ => some "en"⟩

/-- A session holding some text in every field. -/
def sessionEx : Session :=
  ⟨some "hello", some (some "en", "English"), some "hola", none⟩

/-! ## Theorems -/

/-- C1 counterexample: with a codec whose decode succeeds and whose
re-encode prepends a header byte, `adjust_speed` at speed 1.0 returns the
re-encoded bytes `[0, 1]`, not its input `[1]`: the identity law fails
because the function decodes and re-encodes even at speed 1.0. -/
theorem adjust_speed_one_not_identity :
    adjust_speed reencodeEnv [1] 1 = [0, 1] ∧
      adjust_speed reencodeEnv [1] 1 ≠ [1] := by
  constructor <;> decide

/-- C1 (amended): at speed 1.0 `adjust_speed` skips only the speed-change
step; it still decodes and re-encodes, returning the re-encoding of the
decoded input when both steps succeed and the original bytes only when
decoding or re-encoding fails. -/
theorem adjust_speed_one_transcodes (aenv : AdjEnv) (b : List Nat) :
    adjust_speed aenv b 1 =
      (match aenv.decode b with
       | none => b
       | some a => (aenv.exportBytes a).getD b) := by
  unfold adjust_speed
  cases h : aenv.decode b with
  | none => rfl
  | some a =>
    cases h2 : aenv.exportBytes a <;> simp [h2]

/-- C4: `adjust_speed` is total (the bare `except Exception` arm catches
every failure), and whenever the decode, speed-change, or re-encode step
fails it returns the original input bytes unchanged. -/
theorem adjust_speed_failure_returns_input (aenv : AdjEnv) (b : List Nat)
    (s : Rat)
    (h : aenv.decode b = none
       ∨ (∃ a, aenv.decode b = some a ∧
            (if s = 1 then some a else aenv.speedup a s) = none)
       ∨ (∃ a a2, aenv.decode b = some a ∧
            (if s = 1 then some a else aenv.speedup a s) = some a2 ∧
            aenv.exportBytes a2 = none)) :
    adjust_speed aenv b s = b := by
  unfold adjust_speed
  rcases h with h | ⟨a, h1, h2⟩ | ⟨a, a2, h1, h2, h3⟩
  · rw [h]
  · simp only [h1, h2]
  · simp only [h1, h2, h3]

/-- C4 witness: with a codec whose decode raises, `adjust_speed` returns
its input. -/
theorem adjust_speed_failure_returns_input_witness :
    adjust_speed failAdjEnv [7, 8] 2 = [7, 8] :=
  adjust_speed_failure_returns_input failAdjEnv [7, 8] 2 (Or.inl rfl)

/-- C5: `detect_language` is total (its bare `except:` catches every
exception), and on detection failure it returns the sentinel
`(none, "Unknown")`. -/
theorem detect_language_failure_sentinel (d : String → Option String)
    (t : String) (h : d t = none) :
    detect_language d t = (none, "Unknown") := by
  unfold detect_language
  rw [h]

/-- C5 witness: a detector that always raises yields the sentinel. -/
theorem detect_language_failure_sentinel_witness :
    detect_language (fun _ => none) "bonjour" = (none, "Unknown") :=
  detect_language_failure_sentinel (fun _ => none) "bonjour" rfl

/-- C9: when detection succeeds with a code that is not a key of the
`LANGUAGES` registry, `detect_language` returns the pair `(code, code)`:
the display name is the raw detected code itself. -/
theorem detect_language_unregistered_code (d : String → Option String)
    (t c : String) (h1 : d t = some c) (h2 : LANGUAGES.lookup c = none) :
    detect_language d t = (some c, c) := by
  unfold detect_language
  simp [h1, h2]

/-- C9 witness: the code "xx" is not registered, so `detect_language`
returns `(some "xx", "xx")`. -/
theorem detect_language_unregistered_code_witness :
    detect_language (fun _ => some "xx") "zzzz" = (some "xx", "xx") :=
  detect_language_unregistered_code (fun _ => some "xx") "zzzz" "xx" rfl
    (by decide)

/-- C8: `text_to_speech` resolves its voice as
`TTS_LANGUAGE_MAPPING.get(language_code, 'en')`: the registry lookup when
the code is mapped, and the `"en"` voice whenever the code has no registry
mapping — it does not fail on an unmapped code. -/
theorem text_to_speech_voice_resolution (env : TtsEnv) (fs : FS)
    (t c : String) (s : Rat) (hok : env.tmpOk = true) :
    (text_to_speech env fs t c s).voice =
        some ((TTS_LANGUAGE_MAPPING.lookup c).getD "en") ∧
      (TTS_LANGUAGE_MAPPING.lookup c = none →
        (text_to_speech env fs t c s).voice = some "en") := by
  constructor
  · unfold text_to_speech
    rw [hok]
    simp only [if_true]
    cases env.save t ((TTS_LANGUAGE_MAPPING.lookup c).getD "en") <;> rfl
  · intro hc
    unfold text_to_speech
    rw [hok]
    simp only [if_true, hc]
    cases env.save t (Option.getD none "en") <;> rfl

/-- C8 witness: the code "xx" is unmapped, so synthesis uses the "en"
voice. -/
theorem text_to_speech_voice_resolution_witness :
    (text_to_speech failTtsEnv [] "hola" "xx" 1).voice =
        some ((TTS_LANGUAGE_MAPPING.lookup "xx").getD "en") ∧
      (TTS_LANGUAGE_MAPPING.lookup "xx" = none →
        (text_to_speech failTtsEnv [] "hola" "xx" 1).voice = some "en") :=
  text_to_speech_voice_resolution failTtsEnv [] "hola" "xx" 1 rfl

/-- Helper for C2: `adjust_speed` maps non-empty bytes to non-empty bytes
whenever the codec's re-encoder never produces empty output, since every
failure path returns the (non-empty) input. -/
theorem adjust_speed_ne_nil (aenv : AdjEnv) (b : List Nat) (s : Rat)
    (hb : b ≠ [])
    (hE : ∀ a out, aenv.exportBytes a = some out → out ≠ []) :
    adjust_speed aenv b s ≠ [] := by
  unfold adjust_speed
  split
  · exact hb
  · split
    · exact hb
    · split
      · exact hb
      · rename_i h3
        exact hE _ _ h3

/-- C2: provided the synthesis collaborator yields non-empty mp3 bytes on
success and the re-encoder never yields empty output, `text_to_speech`
either reports success having played non-empty audio bytes or reports
failure (the embedding of "raises `SynthesisError`": the Python function
catches the exception and returns `False`); and when the first synthesis
attempt of the playback step fails, exactly one further attempt with
language `"en"` is performed before the failure is surfaced. -/
theorem text_to_speech_nonempty_or_fails_en_fallback
    (env1 env2 : TtsEnv) (st : Session) (fs : FS) (speed : Rat)
    (txt tcode : String)
    (hS : ∀ t v bs, env1.save t v = some bs → bs ≠ [])
    (hE : ∀ a out, env1.adj.exportBytes a = some out → out ≠ [])
    (htxt : st.translated_text = some txt)
    (htc : tcode = (st.target_lang.getD ("en", "English")).1) :
    (((text_to_speech env1 fs txt tcode speed).ok = true ∧
        ∃ bs, (text_to_speech env1 fs txt tcode speed).played = some bs ∧
          bs ≠ []) ∨
      ((text_to_speech env1 fs txt tcode speed).ok = false ∧
        (text_to_speech env1 fs txt tcode speed).played = none)) ∧
    ((text_to_speech env1 fs txt tcode speed).ok = false →
      (playbackAction env1 env2 st fs speed).attempts =
        [(txt, tcode), (txt, "en")]) := by
  constructor
  · unfold text_to_speech
    cases hok : env1.tmpOk with
    | false => exact Or.inr ⟨rfl, rfl⟩
    | true =>
      simp only [if_true]
      cases hs : env1.save txt ((TTS_LANGUAGE_MAPPING.lookup tcode).getD "en") with
      | none => exact Or.inr ⟨rfl, rfl⟩
      | some bs =>
        dsimp only
        refine Or.inl ⟨rfl,
          (if speed = 1 then bs else adjust_speed env1.adj bs speed), rfl, ?_⟩
        by_cases h1 : speed = 1
        · simp only [if_pos h1]
          exact hS _ _ _ hs
        · simp only [if_neg h1]
          exact adjust_speed_ne_nil env1.adj bs speed (hS _ _ _ hs) hE
  · intro hfail
    unfold playbackAction
    rw [htxt]
    simp only [← htc, hfail]
    rfl

/-- C2 witness: an always-failing synthesis collaborator (which vacuously
yields non-empty bytes on success) makes the first attempt fail and the
playback step performs exactly one further attempt with `"en"`. -/
theorem text_to_speech_nonempty_or_fails_en_fallback_witness :
    (((text_to_speech failTtsEnv [] "hola" "en" 1).ok = true ∧
        ∃ bs, (text_to_speech failTtsEnv [] "hola" "en" 1).played = some bs ∧
          bs ≠ []) ∨
      ((text_to_speech failTtsEnv [] "hola" "en" 1).ok = false ∧
        (text_to_speech failTtsEnv [] "hola" "en" 1).played = none)) ∧
    ((text_to_speech failTtsEnv [] "hola" "en" 1).ok = false →
      (playbackAction failTtsEnv failTtsEnv2 sessionEx [] 1).attempts =
        [("hola", "en"), ("hola", "en")]) :=
  text_to_speech_nonempty_or_fails_en_fallback failTtsEnv failTtsEnv2
    sessionEx [] 1 "hola" "en"
    (fun _ _ _ h => absurd h (by simp [failTtsEnv]))
    (fun _ _ h => absurd h (by simp [failTtsEnv, failAdjEnv]))
    rfl rfl

/-- C6: when the translation call raises, the translate handler leaves
`translated_text` unchanged (the assignment only happens after `translate`
returns) and surfaces an error message instead. -/
theorem translate_failure_preserves_translated_text
    (tr : String → String → Option String) (st : Session) (tc t : String)
    (hin : st.input_text = some t) (hfail : tr t tc = none) :
    (translateAction tr st tc).1.translated_text = st.translated_text ∧
      (translateAction tr st tc).2 ≠ [] := by
  unfold translateAction
  rw [hin]
  simp [hfail]

/-- C6 witness: a failing translator leaves the stale translation "hola"
in place and reports an error. -/
theorem translate_failure_preserves_translated_text_witness :
    (translateAction (fun _ _ => none) sessionEx "fr").1.translated_text =
        sessionEx.translated_text ∧
      (translateAction (fun _ _ => none) sessionEx "fr").2 ≠ [] :=
  translate_failure_preserves_translated_text (fun _ _ => none) sessionEx
    "fr" "hello" rfl rfl

/-- C7: when the record action fails — microphone timeout with no speech,
unintelligible audio (`sr.UnknownValueError`), or a recognition-service
error (`sr.RequestError`) — `input_text` keeps its previous value (it
stays unset if it was unset) and an error message is surfaced. -/
theorem record_failure_preserves_input_text (env : RecEnv) (st : Session)
    (fs : FS)
    (h : env.listen = none ∨ env.recog = .unintelligible ∨
      env.recog = .serviceError) :
    (recordAction env st fs).sess.input_text = st.input_text ∧
      (recordAction env st fs).errors ≠ [] := by
  unfold recordAction record_audio
  rcases h with h | h | h
  · rw [h]
    exact ⟨rfl, by simp⟩
  · cases hl : env.listen with
    | none => exact ⟨rfl, by simp⟩
    | some u => rw [h]; exact ⟨rfl, by simp⟩
  · cases hl : env.listen with
    | none => exact ⟨rfl, by simp⟩
    | some u => rw [h]; exact ⟨rfl, by simp⟩

/-- C7 witness: with unintelligible audio, the prior `input_text` value
"hello" is preserved and an error is shown. -/
theorem record_failure_preserves_input_text_witness :
    (recordAction recEnvUnintelligible sessionEx []).sess.input_text =
        sessionEx.input_text ∧
      (recordAction recEnvUnintelligible sessionEx []).errors ≠ [] :=
  record_failure_preserves_input_text recEnvUnintelligible sessionEx []
    (Or.inr (Or.inl rfl))

/-- C10: when playback runs with no target-language selection in the
session state, the first text-to-speech invocation uses the default
language code "en" — the handler reads
`st.session_state.get('target_lang', ('en', 'English'))[0]`. -/
theorem playback_default_target_en (env1 env2 : TtsEnv) (st : Session)
    (fs : FS) (speed : Rat) (txt : String)
    (h1 : st.translated_text = some txt) (h2 : st.target_lang = none) :
    (playbackAction env1 env2 st fs speed).attempts.head? =
      some (txt, "en") := by
  unfold playbackAction
  rw [h1]
  simp only [h2]
  cases (text_to_speech env1 fs txt ((Option.getD none ("en", "English")).1)
      speed).ok <;> rfl

/-- C10 witness: a session with `target_lang` unset synthesizes its
translation with code "en" first. -/
theorem playback_default_target_en_witness :
    (playbackAction failTtsEnv failTtsEnv2 sessionEx [] 1).attempts.head? =
      some ("hola", "en") :=
  playback_default_target_en failTtsEnv failTtsEnv2 sessionEx [] 1 "hola"
    rfl rfl

/-- C3 counterexample: `record_audio` succeeds, returning the path
"rec.wav" of the temporary file it created together with the filesystem —
and that filesystem still contains "rec.wav".  The temporary file created
by the AudioCapture operation outlives the function that created it: it is
handed to the caller, not deleted on `record_audio`'s own exit path. -/
theorem record_audio_file_outlives_function :
    record_audio recEnvOk [] = some ("rec.wav", ["rec.wav"]) ∧
      "rec.wav" ∈ ["rec.wav"] := by
  constructor <;> decide

/-- C3 (amended): `text_to_speech` deletes its temporary file on every
exit path of the function itself, while `record_audio`'s temporary file —
which survives `record_audio`'s return — is deleted on every exit path of
the enclosing record-button handler, so no temporary file survives the
enclosing user action. -/
theorem temp_files_deleted_by_enclosing_action (env : TtsEnv)
    (renv : RecEnv) (st : Session) (fs fs2 : FS) (t c : String) (s : Rat)
    (h1 : env.tmpName ∉ fs) (h2 : renv.recName ∉ fs2) :
    env.tmpName ∉ (text_to_speech env fs t c s).fs ∧
      renv.recName ∉ (recordAction renv st fs2).fs := by
  constructor
  · unfold text_to_speech
    cases env.tmpOk with
    | false => exact h1
    | true =>
      simp only [if_true]
      cases env.save t ((TTS_LANGUAGE_MAPPING.lookup c).getD "en") with
      | none => simp [deleteFile]
      | some bs => simp [deleteFile]
  · unfold recordAction record_audio
    cases renv.listen with
    | none => exact h2
    | some u =>
      cases renv.recog with
      | ok txt =>
        by_cases ht : txt ≠ "" <;> simp [ht, deleteFile]
      | unintelligible => simp [deleteFile]
      | serviceError => simp [deleteFile]

/-- C3 amended-claim witness: with concrete environments and an empty
filesystem, neither "tts.mp3" nor "rec.wav" survives its enclosing
action. -/
theorem temp_files_deleted_by_enclosing_action_witness :
    "tts.mp3" ∉ (text_to_speech failTtsEnv [] "hola" "en" 1).fs ∧
      "rec.wav" ∉ (recordAction recEnvOk sessionEx []).fs :=
  temp_files_deleted_by_enclosing_action failTtsEnv recEnvOk sessionEx
    [] [] "hola" "en" 1 (by simp) (by simp)

end Translator
